import Mathlib

/-!
Verification of the CORS proxy server (src/server.py) for the Purdue Transit PWA.

The development shallowly embeds the request-handling code of server.py:
pure text processing (query parsing, JSON serialization, the config.js
rewrite) is translated to executable Lean functions on lists of characters
and bytes (as Nat), and the effectful boundary (the upstream HTTP call,
the static-file library handler, the config.js file read) is an explicit
oracle input, so that each dispatch branch of the handler is a total
function of the request, the startup configuration and the oracle.

Conventions:
  - strings from the Python side are List Char; raw bytes are List Nat
    (each < 256);
  - Python dict literals that are serialized with json.dumps are embedded
    as a small JSON syntax tree (PyJson) preserving key order, with float
    literals carried as the text json.dumps prints for them, namely the
    shortest round-trip decimal repr of the parsed double: for every float
    constant in server.py that is the source literal with any trailing
    zero dropped (40.4270 prints as 40.427);
  - the response headers a handler emits are the pairs passed to
    send_header, in order, followed by the four headers that the
    overridden end_headers adds on every path (the Server and Date
    headers added by the underlying BaseHTTPRequestHandler library are
    outside the program and are not modelled).
-/

/-- Python ASCII range test used when splitting a string for unquote. -/
def isAsciiChar (c : Char) : Bool := c.toNat ≤ 0x7f

/-- Hex digit test, as in urllib's table of valid percent escapes. -/
def isHexDigit (c : Char) : Bool :=
  (48 ≤ c.toNat && c.toNat ≤ 57) || (97 ≤ c.toNat && c.toNat ≤ 102) ||
  (65 ≤ c.toNat && c.toNat ≤ 70)

/-- Numeric value of a hex digit character. -/
def hexDigitVal (c : Char) : Nat :=
  if 48 ≤ c.toNat && c.toNat ≤ 57 then c.toNat - 48
  else if 97 ≤ c.toNat && c.toNat ≤ 102 then c.toNat - 87
  else c.toNat - 55

/-- UTF-8 encoding of one character, as Python's str.encode produces. -/
def utf8Char (c : Char) : List Nat :=
  let n := c.toNat
  if n < 0x80 then [n]
  else if n < 0x800 then [0xc0 + n / 64, 0x80 + n % 64]
  else if n < 0x10000 then [0xe0 + n / 4096, 0x80 + n / 64 % 64, 0x80 + n % 64]
  else [0xf0 + n / 262144, 0x80 + n / 4096 % 64, 0x80 + n / 64 % 64, 0x80 + n % 64]

/-- UTF-8 encoding of a character list (Python str.encode of utf-8). -/
def utf8Encode (cs : List Char) : List Nat := cs.flatMap utf8Char

/-- The Unicode replacement character emitted for undecodable bytes. -/
def replChar : Char := Char.ofNat 0xfffd

/-- State of the incremental UTF-8 decoder: accumulated code point, number
of continuation bytes still needed, and the valid range for the next byte. -/
structure Utf8State where
  cp : Nat
  needed : Nat
  lower : Nat
  upper : Nat
deriving DecidableEq, Repr

/-- Handle one byte in the initial decoder state: either emit directly,
start a multi-byte sequence, or emit a replacement character for an
invalid lead byte.  Ranges follow the standard UTF-8 validity table,
which is also what CPython's utf-8 decoder with errors=replace follows. -/
def utf8Lead (b : Nat) : List Char × Option Utf8State :=
  if b ≤ 0x7f then ([Char.ofNat b], none)
  else if 0xc2 ≤ b && b ≤ 0xdf then ([], some ⟨b - 0xc0, 1, 0x80, 0xbf⟩)
  else if 0xe0 ≤ b && b ≤ 0xef then
    ([], some ⟨b - 0xe0, 2, (if b = 0xe0 then 0xa0 else 0x80),
               (if b = 0xed then 0x9f else 0xbf)⟩)
  else if 0xf0 ≤ b && b ≤ 0xf4 then
    ([], some ⟨b - 0xf0, 3, (if b = 0xf0 then 0x90 else 0x80),
               (if b = 0xf4 then 0x8f else 0xbf)⟩)
  else ([replChar], none)

/-- Incremental UTF-8 decode with replacement-character error handling,
mirroring bytes.decode of utf-8 with errors=replace as urllib's unquote
uses it: an invalid continuation byte yields one replacement character
and the byte is reprocessed as a lead byte; a truncated final sequence
yields one replacement character. -/
def utf8DecodeGo : Option Utf8State → List Nat → List Char
  | none, [] => []
  | some _, [] => [replChar]
  | none, b :: rest =>
    let p := utf8Lead b
    p.1 ++ utf8DecodeGo p.2 rest
  | some st, b :: rest =>
    if st.lower ≤ b && b ≤ st.upper then
      let cp := st.cp * 64 + (b - 0x80)
      if st.needed = 1 then Char.ofNat cp :: utf8DecodeGo none rest
      else utf8DecodeGo (some ⟨cp, st.needed - 1, 0x80, 0xbf⟩) rest
    else
      let p := utf8Lead b
      replChar :: (p.1 ++ utf8DecodeGo p.2 rest)

/-- Decode a byte list as UTF-8 with replacement characters. -/
def utf8Decode (bs : List Nat) : List Char := utf8DecodeGo none bs

/-- Percent-decoding of an ASCII chunk to bytes, as urllib's
unquote-to-bytes step: a percent sign followed by two hex digits becomes
that byte; an invalid escape leaves the percent sign as a literal byte;
every other character contributes its (ASCII) code. -/
def percentBytes : List Char → List Nat
  | [] => []
  | '%' :: a :: b :: rest =>
    if isHexDigit a && isHexDigit b then
      (hexDigitVal a * 16 + hexDigitVal b) :: percentBytes rest
    else 0x25 :: percentBytes (a :: b :: rest)
  | '%' :: rest => 0x25 :: percentBytes rest
  | c :: rest => c.toNat :: percentBytes rest

/-- Decode a completed ASCII run (accumulated in reverse): percent-decode
it to bytes and decode those as UTF-8 with replacement characters. -/
def unquoteFlush (run : List Char) : List Char :=
  utf8Decode (percentBytes run.reverse)

/-- Worker for unquote: group maximal runs of ASCII characters (held
reversed in the accumulator) and flush each through percent-decoding and
UTF-8 decoding; non-ASCII characters pass through unchanged. -/
def unquoteGo : List Char → List Char → List Char
  | run, [] => unquoteFlush run
  | run, c :: cs =>
    if isAsciiChar c then unquoteGo (c :: run) cs
    else unquoteFlush run ++ c :: unquoteGo [] cs

/-- Python's urllib unquote on a character string: maximal ASCII runs are
percent-decoded to bytes and those bytes decoded as UTF-8 with
replacement characters; non-ASCII characters pass through unchanged. -/
def unquoteChars (l : List Char) : List Char := unquoteGo [] l

/-- Replace plus signs by spaces, the step parse_qsl applies to each name
and value before unquoting. -/
def plusToSpace (cs : List Char) : List Char :=
  cs.map fun c => if c = '+' then ' ' else c

/-- Python str.split on a single separator character: the empty string
yields one empty field, and every separator occurrence starts a new field. -/
def splitOnChar (sep : Char) : List Char → List (List Char)
  | [] => [[]]
  | c :: cs =>
    let r := splitOnChar sep cs
    if c = sep then [] :: r
    else
      match r with
      | [] => [[c]]
      | h :: t => (c :: h) :: t

/-- Python str.split on a separator with maxsplit one: the field before
the first equals sign and everything after it, or none when absent. -/
def splitFirstEq : List Char → Option (List Char × List Char)
  | [] => none
  | c :: cs =>
    if c = '=' then some ([], cs)
    else (splitFirstEq cs).map fun p => (c :: p.1, p.2)

/-- urllib parse_qsl with default arguments: split the query on ampersands,
skip empty fields, skip fields without an equals sign and fields whose raw
value is empty (blank values are not kept), then plus-replace and unquote
each name and value. -/
def parseQSL (qs : List Char) : List (List Char × List Char) :=
  (splitOnChar '&' qs).filterMap fun nv =>
    if nv.isEmpty then none
    else
      match splitFirstEq nv with
      | none => none
      | some p =>
        if p.2.isEmpty then none
        else some (unquoteChars (plusToSpace p.1), unquoteChars (plusToSpace p.2))

/-- The first value of the type parameter of a query string, or the empty
string when absent: parse_qs groups parse_qsl pairs by name in order, and
the handler reads entry zero of the list for the key type with default
the one-element list of the empty string. -/
def reqTypeOfQuery (qs : List Char) : List Char :=
  match (parseQSL qs).find? (fun p => p.1 == "type".toList) with
  | some p => p.2
  | none => []

/-- The query component urlparse extracts from a relative URL reference:
the text after the first question mark, with any fragment (text from the
first hash sign on) removed first. -/
def extractQuery (p : List Char) : List Char :=
  let beforeFrag := p.takeWhile (fun c => c ≠ '#')
  match beforeFrag.dropWhile (fun c => c ≠ '?') with
  | [] => []
  | _ :: rest => rest

/-- JSON values as json.dumps sees the Python dict constants of server.py:
object and array preserve insertion order; non-negative integers cover all
integer literals occurring; float literals are carried as their decimal
source text, which is exactly what json.dumps prints for them because
repr of each parsed constant reproduces the source literal. -/
inductive PyJson where
  | str (s : String)
  | nat (n : Nat)
  | num (lit : String)
  | bool (b : Bool)
  | arr (xs : List PyJson)
  | obj (kvs : List (String × PyJson))
deriving Repr

/-- Four hex digits, lowercase, as the %04x format of the json encoder. -/
def hex4 (n : Nat) : List Char :=
  let d := fun k => if k < 10 then Char.ofNat (48 + k) else Char.ofNat (87 + k)
  [d (n / 4096 % 16), d (n / 256 % 16), d (n / 16 % 16), d (n % 16)]

/-- Escape of one character inside a JSON string, following json.dumps
with its default ensure-ascii setting: the two-character escapes for
quote, backslash and the five control shorthands, a u-escape for other
control characters and for everything outside printable ASCII, with a
surrogate pair beyond the basic multilingual plane. -/
def jsonEscapeChar (c : Char) : List Char :=
  if c = '"' then ['\\', '"']
  else if c = '\\' then ['\\', '\\']
  else if c = '\x08' then ['\\', 'b']
  else if c = '\x0c' then ['\\', 'f']
  else if c = '\n' then ['\\', 'n']
  else if c = '\r' then ['\\', 'r']
  else if c = '\t' then ['\\', 't']
  else if c.toNat < 0x20 || c.toNat > 0x7e then
    if c.toNat ≥ 0x10000 then
      '\\' :: 'u' :: hex4 (0xd800 + (c.toNat - 0x10000) / 0x400) ++
        ('\\' :: 'u' :: hex4 (0xdc00 + (c.toNat - 0x10000) % 0x400))
    else '\\' :: 'u' :: hex4 c.toNat
  else [c]

/-- A JSON string literal as json.dumps prints it. -/
def jsonStr (s : String) : List Char :=
  '"' :: s.toList.flatMap jsonEscapeChar ++ ['"']

mutual

/-- json.dumps with default arguments: item separator comma-space, key
separator colon-space, no indent. -/
def dumps : PyJson → List Char
  | .str s => jsonStr s
  | .nat n => (Nat.repr n).toList
  | .num lit => lit.toList
  | .bool b => if b then ['t', 'r', 'u', 'e'] else ['f', 'a', 'l', 's', 'e']
  | .arr xs => '[' :: dumpsArr xs ++ [']']
  | .obj kvs => '\x7b' :: dumpsObj kvs ++ ['\x7d']

/-- Array elements joined by comma-space. -/
def dumpsArr : List PyJson → List Char
  | [] => []
  | [x] => dumps x
  | x :: y :: xs => dumps x ++ ',' :: ' ' :: dumpsArr (y :: xs)

/-- Object entries joined by comma-space, each key-colon-space-value. -/
def dumpsObj : List (String × PyJson) → List Char
  | [] => []
  | [kv] => jsonStr kv.1 ++ ':' :: ' ' :: dumps kv.2
  | kv :: e :: kvs => jsonStr kv.1 ++ ':' :: ' ' :: dumps kv.2 ++ ',' :: ' ' :: dumpsObj (e :: kvs)

end

/-- Shorthand for a latitude-longitude pair entry of the mock data. -/
def jcoord (lat lon : String) : PyJson :=
  .obj [("latitude", .num lat), ("longitude", .num lon)]

/-- Shorthand for a stop entry with identifier, label and coordinates. -/
def jstop (id label lat lon : String) : PyJson :=
  .obj [("id", .str id), ("label", .str label),
        ("latitude", .num lat), ("longitude", .num lon)]

/-- Shorthand for a stop entry carrying an address identifier as well. -/
def jstopAddr (id addr label lat lon : String) : PyJson :=
  .obj [("id", .str id), ("addressId", .str addr), ("label", .str label),
        ("latitude", .num lat), ("longitude", .num lon)]

/-- The MOCK_ROUTES_AND_STOPS constant of server.py. -/
def MOCK_ROUTES_AND_STOPS : PyJson :=
  .obj [("status", .nat 200),
        ("data", .obj
    [("routes", .arr
      [.obj [("id", .str "mock-route-1"), ("label", .str "Gold Loop (rip)"),
             ("colour", .str "#CEB888"),
             ("stops", .arr
               [jstop "stop-1" "Engineering Mall" "40.4284" "-86.9135",
                jstop "stop-2" "Purdue Memorial Union" "40.4249" "-86.9108",
                jstop "stop-3" "Rawls Hall" "40.4235" "-86.9265",
                jstop "stop-4" "Krach Leadership Center" "40.4223" "-86.9213"]),
             ("routeShape", .obj
               [("orderedCoordinates", .arr
                 [jcoord "40.4284" "-86.9135", jcoord "40.427" "-86.912",
                  jcoord "40.4249" "-86.9108", jcoord "40.424" "-86.918",
                  jcoord "40.4235" "-86.9265", jcoord "40.4223" "-86.9213",
                  jcoord "40.4284" "-86.9135"])])],
       .obj [("id", .str "mock-route-2"), ("label", .str "Black Loop"),
             ("colour", .str "#1A1A1A"),
             ("stops", .arr
               [jstop "stop-5" "Ross-Ade Stadium" "40.4396" "-86.9187",
                jstop "stop-6" "Corec" "40.4289" "-86.9224",
                jstop "stop-2" "Purdue Memorial Union" "40.4249" "-86.9108"]),
             ("routeShape", .obj
               [("orderedCoordinates", .arr
                 [jcoord "40.4396" "-86.9187", jcoord "40.434" "-86.92",
                  jcoord "40.4289" "-86.9224", jcoord "40.4249" "-86.9108",
                  jcoord "40.4396" "-86.9187"])])],
       .obj [("id", .str "mock-route-3"), ("label", .str "Silver Loop"),
             ("colour", .str "#94A3B8"),
             ("stops", .arr
               [jstop "stop-7" "Third Street Suites" "40.421" "-86.905",
                jstop "stop-8" "Chauncey Hill Mall" "40.4235" "-86.9065",
                jstop "stop-1" "Engineering Mall" "40.4284" "-86.9135"]),
             ("routeShape", .obj
               [("orderedCoordinates", .arr
                 [jcoord "40.421" "-86.905", jcoord "40.4235" "-86.9065",
                  jcoord "40.426" "-86.91", jcoord "40.4284" "-86.9135",
                  jcoord "40.421" "-86.905"])])]]),
     ("stops", .arr
       [jstopAddr "stop-1" "mock-uuid-1" "Engineering Mall" "40.4284" "-86.9135",
        jstopAddr "stop-2" "mock-uuid-2" "Purdue Memorial Union" "40.4249" "-86.9108",
        jstopAddr "stop-3" "mock-uuid-3" "Rawls Hall" "40.4235" "-86.9265",
        jstopAddr "stop-4" "mock-uuid-4" "Krach Leadership Center" "40.4223" "-86.9213",
        jstopAddr "stop-5" "mock-uuid-5" "Ross-Ade Stadium" "40.4396" "-86.9187",
        jstopAddr "stop-6" "mock-uuid-6" "Corec" "40.4289" "-86.9224",
        jstopAddr "stop-7" "mock-uuid-7" "Third Street Suites" "40.421" "-86.905",
        jstopAddr "stop-8" "mock-uuid-8" "Chauncey Hill Mall" "40.4235" "-86.9065"])])]

/-- Shorthand for a route reference object of the mock bus data. -/
def jroute (id label colour : String) : PyJson :=
  .obj [("id", .str id), ("label", .str label), ("colour", .str colour)]

/-- Shorthand for a capacity entry of the mock bus data. -/
def jcap (name : String) (amount : Nat) : PyJson :=
  .obj [("capacityName", .str name), ("amount", .nat amount)]

/-- Shorthand for a running-bus entry of the mock bus data. -/
def jbus (sid : String) (route : PyJson) (name lat lon : String)
    (caps : List PyJson) : PyJson :=
  .obj [("shiftSolutionId", .str sid), ("route", route),
        ("vehicle", .obj [("displayName", .str name), ("name", .str name)]),
        ("location", .obj [("latitude", .num lat), ("longitude", .num lon),
                           ("timestamp", .str "2024-01-15T12:00:00Z")]),
        ("availableCapacities", .arr caps)]

/-- The MOCK_RUNNING_BUSES constant of server.py. -/
def MOCK_RUNNING_BUSES : PyJson :=
  .obj [("status", .nat 200),
        ("data", .arr
    [jbus "mock-bus-1" (jroute "mock-route-1" "Gold Loop" "#CEB888")
       "Bus 101" "40.426" "-86.9115" [jcap "standard" 15, jcap "wheelchair" 2],
     jbus "mock-bus-2" (jroute "mock-route-1" "Gold Loop" "#CEB888")
       "Bus 102" "40.423" "-86.924" [jcap "standard" 8, jcap "wheelchair" 1],
     jbus "mock-bus-3" (jroute "mock-route-2" "Black Loop" "#1A1A1A")
       "Bus 201" "40.432" "-86.9195" [jcap "standard" 22, jcap "wheelchair" 2],
     jbus "mock-bus-4" (jroute "mock-route-3" "Silver Loop" "#94A3B8")
       "Bus 301" "40.4245" "-86.908" [jcap "standard" 5, jcap "wheelchair" 0]])]

/-- The MOCK_STOP_DETAILS constant of server.py. -/
def MOCK_STOP_DETAILS : PyJson :=
  .obj [("status", .nat 200),
        ("data", .obj
    [("stop", .arr
      [.obj [("shiftSolutionId", .str "mock-bus-1"),
             ("route", jroute "mock-route-1" "Gold Loop" "#CEB888"),
             ("stopEta", .nat 3),
             ("availableCapacities", .arr [jcap "standard" 15])],
       .obj [("shiftSolutionId", .str "mock-bus-2"),
             ("route", jroute "mock-route-1" "Gold Loop" "#CEB888"),
             ("stopEta", .nat 12),
             ("availableCapacities", .arr [jcap "standard" 8])]])])]

/-- The empty-success envelope served for an unknown mock request type. -/
def EMPTY_ENVELOPE : PyJson :=
  .obj [("status", .nat 200), ("data", .arr [])]

/-- The startup configuration of server.py: the DEBUG_MOCK_ENABLED flag and
the DEBUG_TIME_OVERRIDE string (none when the --time flag is absent), both
set once in main and read-only during request handling. -/
structure Config where
  mock : Bool
  timeOverride : Option String
deriving DecidableEq, Repr

/-- An HTTP response as the handler constructs it: the status passed to
send_response, the headers passed to send_header in order, and the body
bytes written to wfile. -/
structure Response where
  status : Nat
  headers : List (String × String)
  body : List Nat
deriving DecidableEq, Repr

/-- The three CORS headers of server.py, in the order they are sent. -/
def corsHeaderList : List (String × String) :=
  [("Access-Control-Allow-Origin", "*"),
   ("Access-Control-Allow-Methods", "GET, POST, OPTIONS"),
   ("Access-Control-Allow-Headers", "*")]

/-- The headers the overridden end_headers appends to every response:
the three CORS headers followed by Cache-Control no-store. -/
def endHeadersAdded : List (String × String) :=
  corsHeaderList ++ [("Cache-Control", "no-store")]

/-- Finalize a response: every send path of the handler sends a status,
some headers, then calls end_headers, which appends the CORS and
Cache-Control headers before terminating the header block. -/
def mkResponse (status : Nat) (declared : List (String × String))
    (body : List Nat) : Response :=
  ⟨status, declared ++ endHeadersAdded, body⟩

/-- The Content-Type header common to all API responses. -/
def contentTypeJson : List (String × String) :=
  [("Content-Type", "application/json")]

/-- Outcome of the outbound urlopen call in live mode, abstracting the
network: a response object (whose status the code never reads) with its
body bytes, an HTTPError with code, reason phrase and error body, a
URLError with a reason, or any other exception with its text. -/
inductive UpstreamOutcome where
  | success (upstreamStatus : Nat) (data : List Nat)
  | httpError (code : Nat) (reason : String) (errBody : List Nat)
  | urlError (reason : String)
  | exn (msg : String)
deriving DecidableEq, Repr

/-- Outcome of delegating to the SimpleHTTPRequestHandler base class for a
static file: either the library sends a response (whose header
finalization still goes through the overridden end_headers), or it raises
and the surrounding try block logs the error without sending anything. -/
inductive StaticOutcome where
  | ok (status : Nat) (declared : List (String × String)) (body : List Nat)
  | exn (msg : String)
deriving DecidableEq, Repr

/-- The per-request oracle: the upstream call outcome, the contents of the
local config.js file (none when opening or reading it raises), and the
static-file library outcome. -/
structure World where
  upstream : UpstreamOutcome
  configFile : Option (List Char)
  staticResult : StaticOutcome
deriving DecidableEq, Repr

/-- The mock response body selected by serve_mock_response for a request
type: one of the three known constants, or the empty-success envelope. -/
def mockTable (t : List Char) : PyJson :=
  if t = "getserviceroutesandstops".toList then MOCK_ROUTES_AND_STOPS
  else if t = "getrunningshiftsolutions".toList then MOCK_RUNNING_BUSES
  else if t = "getrunningstopdetails".toList then MOCK_STOP_DETAILS
  else EMPTY_ENVELOPE

/-- The request type serve_mock_response derives from the stripped API
path: the first value of the type query parameter, empty when absent. -/
def reqTypeOfApiPath (apiPath : List Char) : List Char :=
  reqTypeOfQuery (extractQuery apiPath)

/-- serve_mock_response of server.py: parse the query of the stripped API
path, look the type up in the mock table, and send 200 with the JSON
serialization as body. -/
def serveMockResponse (apiPath : List Char) : Response :=
  mkResponse 200 contentTypeJson
    (utf8Encode (dumps (mockTable (reqTypeOfApiPath apiPath))))

/-- The error envelope json.dumps serializes in the three failure branches
of proxy_api_request. -/
def errEnvelope (status : Nat) (message : String) : PyJson :=
  .obj [("error", .bool true), ("status", .nat status), ("message", .str message)]

/-- proxy_api_request of server.py: strip the four-character /api prefix;
in mock mode answer from the mock table without touching the network,
otherwise dispatch on the outcome of the upstream call.  The second
component records whether the upstream call was issued. -/
def proxyApiRequest (cfg : Config) (w : World) (path : List Char) :
    Response × Bool :=
  let apiPath := path.drop 4
  if cfg.mock then (serveMockResponse apiPath, false)
  else
    (match w.upstream with
     | .success _ data => mkResponse 200 contentTypeJson data
     | .httpError code reason _ =>
       mkResponse code contentTypeJson (utf8Encode (dumps (errEnvelope code reason)))
     | .urlError reason =>
       mkResponse 502 contentTypeJson (utf8Encode (dumps (errEnvelope 502 reason)))
     | .exn msg =>
       mkResponse 500 contentTypeJson (utf8Encode (dumps (errEnvelope 500 msg))),
     true)

/-- Whitespace as the regular-expression class backslash-s matches for
Python text patterns: the six ASCII whitespace characters plus the
Unicode whitespace code points of the str flavour. -/
def isPySpace (c : Char) : Bool :=
  let n := c.toNat
  n = 0x20 || (0x9 ≤ n && n ≤ 0xd) || (0x1c ≤ n && n ≤ 0x1f) ||
  n = 0x85 || n = 0xa0 || n = 0x1680 || (0x2000 ≤ n && n ≤ 0x200a) ||
  n = 0x2028 || n = 0x2029 || n = 0x202f || n = 0x205f || n = 0x3000

/-- Quote test for the character class of the rewrite pattern. -/
def isQuoteChar (c : Char) : Bool := c = '\x27' || c = '"'

/-- The literal key text of the rewrite pattern in serve_local_config. -/
def corsKeyChars : List Char := "CORS_PROXY_URL:".toList

/-- Consume the character-class part of the rewrite pattern: zero or more
non-quote characters followed by a closing quote, returning the remainder
after the closing quote, or none when no quote follows. -/
def scanQuote : List Char → Option (List Char)
  | [] => none
  | c :: cs => if isQuoteChar c then some cs else scanQuote cs

/-- Match the rewrite regular expression of serve_local_config at the head
of the text: the literal key, any run of whitespace, an opening quote, a
greedy run of non-quote characters and a closing quote.  Returns the
remainder after the match.  Because the inner class excludes exactly the
two quote characters that close the match, the greedy match is the scan
to the first following quote. -/
def matchPat (l : List Char) : Option (List Char) :=
  if corsKeyChars.isPrefixOf l then
    match (l.drop corsKeyChars.length).dropWhile isPySpace with
    | [] => none
    | c :: cs => if isQuoteChar c then scanQuote cs else none
  else none

theorem scanQuote_length_lt {l r : List Char} (h : scanQuote l = some r) :
    r.length < l.length := by
  induction l with
  | nil => simp [scanQuote] at h
  | cons c cs ih =>
    simp only [scanQuote] at h
    split at h
    · cases h
      simp
    · exact Nat.lt_succ_of_lt (ih h)

theorem dropWhile_length_le (p : Char → Bool) (l : List Char) :
    (l.dropWhile p).length ≤ l.length := by
  induction l with
  | nil => simp
  | cons c cs ih =>
    by_cases hc : p c
    · simp [List.dropWhile_cons, hc]
      exact Nat.le_succ_of_le ih
    · simp [List.dropWhile_cons, hc]

theorem matchPat_length_lt {l r : List Char} (h : matchPat l = some r) :
    r.length < l.length := by
  unfold matchPat at h
  split at h
  · rename_i hpre
    have hlen : corsKeyChars.length ≤ l.length := by
      have := (List.isPrefixOf_iff_prefix).mp hpre
      exact this.length_le
    have hdw := dropWhile_length_le isPySpace (l.drop corsKeyChars.length)
    rw [List.length_drop] at hdw
    split at h
    · cases h
    · rename_i c cs heq
      have hcs : cs.length + 1 ≤ l.length - corsKeyChars.length := by
        have : (c :: cs).length ≤ l.length - corsKeyChars.length := heq ▸ hdw
        simpa using this
      split at h
      · have := scanQuote_length_lt h
        have h15 : corsKeyChars.length = 15 := by decide
        omega
      · cases h
  · cases h

/-- The replacement text of the rewrite. -/
def corsReplacement : List Char := "CORS_PROXY_URL: \x27\x27".toList

/-- re.sub of the rewrite pattern over the whole config text: scan left to
right, replace each non-overlapping match and continue after it, copy
one character and retry on failure. -/
def subAll : List Char → List Char
  | [] => []
  | c :: cs =>
    match hm : matchPat (c :: cs) with
    | some rest => corsReplacement ++ subAll rest
    | none => c :: subAll cs
termination_by l => l.length
decreasing_by
  · exact matchPat_length_lt hm
  · simp

/-- Whether the rewrite pattern matches anywhere in the text. -/
def hasPat : List Char → Bool
  | [] => false
  | c :: cs => (matchPat (c :: cs)).isSome || hasPat cs

/-- The debug text serve_local_config builds before the config body: the
time-override assignment when DEBUG_TIME_OVERRIDE is truthy (set and
non-empty), then the mock flag assignment when DEBUG_MOCK_ENABLED. -/
def debugInjection (cfg : Config) : List Char :=
  (match cfg.timeOverride with
   | none => []
   | some t =>
     if t = "" then []
     else ("\n// ═══ DEBUG TIME OVERRIDE (from server.py --time flag) ═══\nwindow.DEBUG_TIME_OVERRIDE = \x27" ++ t ++ "\x27;\n").toList) ++
  (if cfg.mock then
    "\n// ═══ DEBUG MOCK MODE ENABLED (from server.py --mock flag) ═══\nwindow.DEBUG_MOCK_ENABLED = true;\n".toList
   else [])

/-- The text serve_local_config serves for a successfully read config.js:
the rewrite applied to the whole file, with the debug injection and a
newline prepended when the injection is non-empty. -/
def configOutputText (cfg : Config) (content : List Char) : List Char :=
  let modified := subAll content
  let inj := debugInjection cfg
  if inj = [] then modified else inj ++ '\n' :: modified

/-- serve_local_config of server.py: on a successful read, 200 with
Content-Type application/javascript and the rewritten text; when the
read raises, the except branch sends 500 with no extra headers and an
empty body. -/
def serveLocalConfig (cfg : Config) (file : Option (List Char)) : Response :=
  match file with
  | none => mkResponse 500 [] []
  | some content =>
    mkResponse 200 [("Content-Type", "application/javascript")]
      (utf8Encode (configOutputText cfg content))

/-- The two request methods whose handlers server.py defines; any other
method is answered 501 by the base library and is outside this model. -/
inductive Method where
  | GET
  | OPTIONS
deriving DecidableEq, Repr

/-- Result of handling one request: the response sent, none when the
static branch raises before sending anything, and whether the outbound
upstream call was issued. -/
structure HandleResult where
  resp : Option Response
  upstreamCalled : Bool
deriving DecidableEq, Repr

/-- The static-file branch of do_GET: delegate to the base library handler
inside a try block; its sends are finalized through the overridden
end_headers, and a raised exception is logged with nothing sent. -/
def staticBranch (w : World) : HandleResult :=
  match w.staticResult with
  | .ok status declared body => ⟨some (mkResponse status declared body), false⟩
  | .exn _ => ⟨none, false⟩

/-- do_GET of server.py: paths starting with the five characters /api/
go to the API proxy, the path /config.js exactly or starting with
/config.js? goes to the config handler, everything else to the static
branch. -/
def handleGET (cfg : Config) (w : World) (path : List Char) : HandleResult :=
  if "/api/".toList.isPrefixOf path then
    ⟨some (proxyApiRequest cfg w path).1, (proxyApiRequest cfg w path).2⟩
  else if path = "/config.js".toList || "/config.js?".toList.isPrefixOf path then
    ⟨some (serveLocalConfig cfg w.configFile), false⟩
  else staticBranch w

/-- do_OPTIONS of server.py: 200, the three CORS headers sent explicitly,
then end_headers (which appends them again with Cache-Control), empty
body. -/
def handleOPTIONS : HandleResult :=
  ⟨some (mkResponse 200 corsHeaderList []), false⟩

/-- Dispatch of one inbound request by method, as the base class routes to
do_OPTIONS or do_GET. -/
def handle (cfg : Config) (w : World) : Method → List Char → HandleResult
  | .OPTIONS, _ => handleOPTIONS
  | .GET, path => handleGET cfg w path

/-- The request type the mock path of the proxy derives from the full
request path (after stripping the four-character /api prefix). -/
def reqTypeOfPath (path : List Char) : List Char :=
  reqTypeOfApiPath (path.drop 4)

/-- The whitespace characters int() strips around its argument, observed
behaviorally on CPython: tab through carriage return, space, next line,
no-break space, ogham space mark, the en/em family of spaces, line and
paragraph separator, narrow no-break space, medium mathematical space
and ideographic space (note: narrower than the regular-expression
whitespace class, which additionally has the four ASCII separators
0x1c-0x1f). -/
def isIntSpace (c : Char) : Bool :=
  let n := c.toNat
  n = 0x20 || (0x9 ≤ n && n ≤ 0xd) || n = 0x85 || n = 0xa0 || n = 0x1680 ||
  (0x2000 ≤ n && n ≤ 0x200a) || n = 0x2028 || n = 0x2029 || n = 0x202f ||
  n = 0x205f || n = 0x3000

/-- The code-point ranges of Unicode decimal digits (category Nd), which
int() accepts as digits; enumerated from the unicodedata decimal table
of the CPython build (each range is a run of consecutive decimal-digit
code points). -/
def decimalDigitRanges : List (Nat × Nat) :=
  [(0x30, 0x39), (0x660, 0x669), (0x6f0, 0x6f9), (0x7c0, 0x7c9),
   (0x966, 0x96f), (0x9e6, 0x9ef), (0xa66, 0xa6f), (0xae6, 0xaef),
   (0xb66, 0xb6f), (0xbe6, 0xbef), (0xc66, 0xc6f), (0xce6, 0xcef),
   (0xd66, 0xd6f), (0xde6, 0xdef), (0xe50, 0xe59), (0xed0, 0xed9),
   (0xf20, 0xf29), (0x1040, 0x1049), (0x1090, 0x1099), (0x17e0, 0x17e9),
   (0x1810, 0x1819), (0x1946, 0x194f), (0x19d0, 0x19d9), (0x1a80, 0x1a89),
   (0x1a90, 0x1a99), (0x1b50, 0x1b59), (0x1bb0, 0x1bb9), (0x1c40, 0x1c49),
   (0x1c50, 0x1c59), (0xa620, 0xa629), (0xa8d0, 0xa8d9), (0xa900, 0xa909),
   (0xa9d0, 0xa9d9), (0xa9f0, 0xa9f9), (0xaa50, 0xaa59), (0xabf0, 0xabf9),
   (0xff10, 0xff19), (0x104a0, 0x104a9), (0x10d30, 0x10d39), (0x11066, 0x1106f),
   (0x110f0, 0x110f9), (0x11136, 0x1113f), (0x111d0, 0x111d9), (0x112f0, 0x112f9),
   (0x11450, 0x11459), (0x114d0, 0x114d9), (0x11650, 0x11659), (0x116c0, 0x116c9),
   (0x11730, 0x11739), (0x118e0, 0x118e9), (0x11950, 0x11959), (0x11c50, 0x11c59),
   (0x11d50, 0x11d59), (0x11da0, 0x11da9), (0x16a60, 0x16a69), (0x16ac0, 0x16ac9),
   (0x16b50, 0x16b59), (0x1d7ce, 0x1d7ff), (0x1e140, 0x1e149), (0x1e2f0, 0x1e2f9),
   (0x1e950, 0x1e959), (0x1fbf0, 0x1fbf9)]

/-- Unicode decimal digit test, the digit acceptance of int(). -/
def isPyDigit (c : Char) : Bool :=
  decimalDigitRanges.any fun r => r.1 ≤ c.toNat && c.toNat ≤ r.2

/-- Digit run with optional single underscores between digits, as int()
accepts after the sign: non-empty, no leading, trailing or doubled
underscore; digits are Unicode decimal digits. -/
def digitsWithUnderscores : List Char → Bool
  | [] => false
  | [c] => isPyDigit c
  | c :: '_' :: rest => isPyDigit c && digitsWithUnderscores rest
  | c :: rest => isPyDigit c && digitsWithUnderscores rest

/-- Whether int() accepts the string: surrounding Unicode whitespace
stripped, an optional ASCII sign, then a run of Unicode decimal digits
with optional single underscores between digits. -/
def isPyInt (s : List Char) : Bool :=
  let core := (s.dropWhile isIntSpace).reverse.dropWhile isIntSpace |>.reverse
  match core with
  | '+' :: rest => digitsWithUnderscores rest
  | '-' :: rest => digitsWithUnderscores rest
  | rest => digitsWithUnderscores rest

/-- The --time validation of main: split the string on every colon, and
accept exactly two fields with both parseable by int(). -/
def timeFormatOk (t : String) : Bool :=
  match splitOnChar ':' t.toList with
  | [h, m] => isPyInt h && isPyInt m
  | _ => false

/-- Result of main up to the point the listening socket is bound: either
sys.exit(1) during --time validation, which precedes the construction of
ThreadedHTTPServer and hence the bind, or proceeding to serve with the
global debug flags set. -/
inductive StartupResult where
  | exitError
  | serve (cfg : Config)
deriving DecidableEq, Repr

/-- main of server.py after argument parsing: the validation block runs
only when DEBUG_TIME_OVERRIDE is truthy, so an absent flag and the empty
string both skip it; a malformed non-empty string exits with status one
before the server is created. -/
def startup (mock : Bool) (time : Option String) : StartupResult :=
  match time with
  | none => .serve ⟨mock, none⟩
  | some t =>
    if t = "" then .serve ⟨mock, some t⟩
    else if timeFormatOk t then .serve ⟨mock, some t⟩
    else .exitError

theorem mem_mkResponse_headers (s : Nat) (d : List (String × String)) (b : List Nat) :
    ("Access-Control-Allow-Origin", "*") ∈ (mkResponse s d b).headers ∧
    ("Access-Control-Allow-Methods", "GET, POST, OPTIONS") ∈ (mkResponse s d b).headers ∧
    ("Access-Control-Allow-Headers", "*") ∈ (mkResponse s d b).headers ∧
    ("Cache-Control", "no-store") ∈ (mkResponse s d b).headers := by
  simp [mkResponse, endHeadersAdded, corsHeaderList]

theorem handle_resp_shape (cfg : Config) (w : World) (m : Method) (path : List Char) :
    (handle cfg w m path).resp = none ∨
    ∃ s d b, (handle cfg w m path).resp = some (mkResponse s d b) := by
  cases m with
  | OPTIONS => exact Or.inr ⟨200, corsHeaderList, [], rfl⟩
  | GET =>
    simp only [handle]
    unfold handleGET
    split
    · refine Or.inr ?_
      unfold proxyApiRequest
      split
      · exact ⟨200, contentTypeJson, _, rfl⟩
      · rcases w.upstream with ⟨us, data⟩ | ⟨code, reason, eb⟩ | reason | msg
        · exact ⟨200, contentTypeJson, _, rfl⟩
        · exact ⟨code, contentTypeJson, _, rfl⟩
        · exact ⟨502, contentTypeJson, _, rfl⟩
        · exact ⟨500, contentTypeJson, _, rfl⟩
    · split
      · rcases w.configFile with _ | content
        · exact Or.inr ⟨500, [], [], rfl⟩
        · exact Or.inr ⟨200, [("Content-Type", "application/javascript")], _, rfl⟩
      · unfold staticBranch
        rcases w.staticResult with ⟨st, d, b⟩ | msg
        · exact Or.inr ⟨st, d, b, rfl⟩
        · exact Or.inl rfl

/-- C1: for every inbound request and every dispatch branch (OPTIONS
preflight, API proxy in live or mock mode including its error paths,
config rewrite including its 500 path, static file), the response
produced carries the three CORS headers and Cache-Control no-store. -/
theorem C1_every_response_has_cors_and_cache_headers
    (cfg : Config) (w : World) (m : Method) (path : List Char) (r : Response)
    (h : (handle cfg w m path).resp = some r) :
    ("Access-Control-Allow-Origin", "*") ∈ r.headers ∧
    ("Access-Control-Allow-Methods", "GET, POST, OPTIONS") ∈ r.headers ∧
    ("Access-Control-Allow-Headers", "*") ∈ r.headers ∧
    ("Cache-Control", "no-store") ∈ r.headers := by
  rcases handle_resp_shape cfg w m path with hn | ⟨s, d, b, he⟩
  · rw [hn] at h
    cases h
  · rw [he] at h
    cases h
    exact mem_mkResponse_headers s d b

theorem handle_mock_api (cfg : Config) (w : World) (path : List Char)
    (hmock : cfg.mock = true)
    (hp : "/api/".toList.isPrefixOf path = true) :
    handle cfg w .GET path = ⟨some (serveMockResponse (path.drop 4)), false⟩ := by
  have hpp : ['/', 'a', 'p', 'i', '/'] <+: path := by
    simpa using List.isPrefixOf_iff_prefix.mp hp
  simp [handle, handleGET, hpp, proxyApiRequest, hmock]

/-- A live-mode configuration used for concrete instances. -/
def cfgLive : Config := ⟨false, none⟩

/-- A mock-mode configuration used for concrete instances. -/
def cfgMock : Config := ⟨true, none⟩

/-- A concrete oracle with a successful upstream call and static file. -/
def wDemo : World := ⟨.success 200 [1, 2, 3], some "x = 1".toList, .ok 200 [] []⟩

/-- A second concrete oracle, differing from the first in every component,
used to exhibit independence from the oracle. -/
def wDemo2 : World := ⟨.urlError "boom", none, .exn "io"⟩

theorem C1_witness :
    ("Access-Control-Allow-Origin", "*") ∈ (mkResponse 200 [] []).headers ∧
    ("Access-Control-Allow-Methods", "GET, POST, OPTIONS") ∈ (mkResponse 200 [] []).headers ∧
    ("Access-Control-Allow-Headers", "*") ∈ (mkResponse 200 [] []).headers ∧
    ("Cache-Control", "no-store") ∈ (mkResponse 200 [] []).headers :=
  C1_every_response_has_cors_and_cache_headers cfgLive wDemo .GET "/x".toList
    (mkResponse 200 [] []) (by rfl)

/-- C2: when mock mode is enabled, the API proxy handler for any path
beginning with /api/ performs no upstream HTTP call, and the response is
determined solely by the value of the type query parameter (empty when
absent): any two mock-mode requests with equal type values receive equal
responses, regardless of the rest of the path, other query parameters,
the time-override flag, or any upstream state. -/
theorem C2_mock_no_upstream_call_and_type_determines_response
    (cfg : Config) (w : World) (path : List Char)
    (hmock : cfg.mock = true)
    (hp : "/api/".toList.isPrefixOf path = true) :
    (handle cfg w .GET path).upstreamCalled = false ∧
    ∀ (cfg2 : Config) (w2 : World) (path2 : List Char),
      cfg2.mock = true → "/api/".toList.isPrefixOf path2 = true →
      reqTypeOfPath path = reqTypeOfPath path2 →
      (handle cfg w .GET path).resp = (handle cfg2 w2 .GET path2).resp := by
  refine ⟨by rw [handle_mock_api cfg w path hmock hp], ?_⟩
  intro cfg2 w2 path2 hmock2 hp2 heq
  rw [handle_mock_api cfg w path hmock hp, handle_mock_api cfg2 w2 path2 hmock2 hp2]
  show some (serveMockResponse _) = some (serveMockResponse _)
  unfold serveMockResponse
  rw [show reqTypeOfApiPath (path.drop 4) = reqTypeOfPath path from rfl,
      show reqTypeOfApiPath (path2.drop 4) = reqTypeOfPath path2 from rfl, heq]

theorem C2_witness :
    (handle cfgMock wDemo .GET "/api/a?type=x&other=1".toList).upstreamCalled = false ∧
    (handle cfgMock wDemo .GET "/api/a?type=x&other=1".toList).resp
      = (handle ⟨true, some "14:30"⟩ wDemo2 .GET "/api/b/c?type=x".toList).resp :=
  ⟨(C2_mock_no_upstream_call_and_type_determines_response cfgMock wDemo
      "/api/a?type=x&other=1".toList rfl (by decide)).1,
   (C2_mock_no_upstream_call_and_type_determines_response cfgMock wDemo
      "/api/a?type=x&other=1".toList rfl (by decide)).2
     ⟨true, some "14:30"⟩ wDemo2 "/api/b/c?type=x".toList rfl (by decide) (by decide)⟩

/-- C3: in live mode, for every /api/ request where the upstream returns
an HTTP error status, the proxy responds with that same status code,
Content-Type application/json, and the json.dumps serialization of the
envelope with error true, status the code, and message the upstream
reason phrase. -/
theorem C3_live_http_error_relayed_with_status_and_envelope
    (cfg : Config) (w : World) (path : List Char)
    (code : Nat) (reason : String) (ebody : List Nat)
    (hmock : cfg.mock = false)
    (hp : "/api/".toList.isPrefixOf path = true)
    (hu : w.upstream = .httpError code reason ebody) :
    (handle cfg w .GET path).resp =
      some (mkResponse code contentTypeJson
        (utf8Encode (dumps (errEnvelope code reason)))) := by
  have hpp : ['/', 'a', 'p', 'i', '/'] <+: path := by
    simpa using List.isPrefixOf_iff_prefix.mp hp
  simp [handle, handleGET, hpp, proxyApiRequest, hmock, hu]

/-- A concrete oracle whose upstream call raises HTTPError 404. -/
def wHttp404 : World := ⟨.httpError 404 "Not Found" [0x6e], none, .exn "io"⟩

theorem C3_witness :
    (handle cfgLive wHttp404 .GET "/api/stops?type=x".toList).resp =
      some (mkResponse 404 contentTypeJson
        (utf8Encode (dumps (errEnvelope 404 "Not Found")))) :=
  C3_live_http_error_relayed_with_status_and_envelope cfgLive wHttp404
    "/api/stops?type=x".toList 404 "Not Found" [0x6e] rfl (by decide) rfl

/-- C4: in live mode, for every /api/ request where the outbound call
fails with a connection failure raising URLError, the proxy responds 502
with the error envelope carrying status 502 and the failure reason, and
any other exception during the call yields 500 with the error envelope
carrying status 500 and the exception text. -/
theorem C4_live_network_failure_502_and_other_failure_500
    (cfg : Config) (w : World) (path : List Char)
    (hmock : cfg.mock = false)
    (hp : "/api/".toList.isPrefixOf path = true) :
    (∀ reason : String, w.upstream = .urlError reason →
      (handle cfg w .GET path).resp =
        some (mkResponse 502 contentTypeJson
          (utf8Encode (dumps (errEnvelope 502 reason))))) ∧
    (∀ msg : String, w.upstream = .exn msg →
      (handle cfg w .GET path).resp =
        some (mkResponse 500 contentTypeJson
          (utf8Encode (dumps (errEnvelope 500 msg))))) := by
  have hpp : ['/', 'a', 'p', 'i', '/'] <+: path := by
    simpa using List.isPrefixOf_iff_prefix.mp hp
  constructor <;> intro s hu <;>
    simp [handle, handleGET, hpp, proxyApiRequest, hmock, hu]

/-- A concrete oracle whose upstream call raises URLError. -/
def wNetFail : World := ⟨.urlError "dns failure", none, .exn "io"⟩

theorem C4_witness :
    (handle cfgLive wNetFail .GET "/api/stops".toList).resp =
      some (mkResponse 502 contentTypeJson
        (utf8Encode (dumps (errEnvelope 502 "dns failure")))) :=
  (C4_live_network_failure_502_and_other_failure_500 cfgLive wNetFail
    "/api/stops".toList rfl (by decide)).1 "dns failure" rfl

/-- C5: in live mode, for every /api/ request where the upstream call
yields an HTTP response without raising, the proxy responds 200 whatever
the upstream status code was (the code never reads it), with Content-Type
application/json and the upstream body bytes unchanged. -/
theorem C5_live_success_relayed_as_200_with_body_unchanged
    (cfg : Config) (w : World) (path : List Char)
    (ustatus : Nat) (data : List Nat)
    (hmock : cfg.mock = false)
    (hp : "/api/".toList.isPrefixOf path = true)
    (hu : w.upstream = .success ustatus data) :
    (handle cfg w .GET path).resp =
      some (mkResponse 200 contentTypeJson data) := by
  have hpp : ['/', 'a', 'p', 'i', '/'] <+: path := by
    simpa using List.isPrefixOf_iff_prefix.mp hp
  simp [handle, handleGET, hpp, proxyApiRequest, hmock, hu]

/-- A concrete oracle whose upstream answers with status 204. -/
def wSuccess204 : World := ⟨.success 204 [0x7b, 0x7d], none, .exn "io"⟩

theorem C5_witness :
    (handle cfgLive wSuccess204 .GET "/api/v".toList).resp =
      some (mkResponse 200 contentTypeJson [0x7b, 0x7d]) :=
  C5_live_success_relayed_as_200_with_body_unchanged cfgLive wSuccess204
    "/api/v".toList 204 [0x7b, 0x7d] rfl (by decide) rfl

/-- C6: with mock mode enabled, every GET to an /api/ path whose type
query parameter equals getserviceroutesandstops is answered 200 with the
json.dumps serialization of the fixed MOCK_ROUTES_AND_STOPS envelope,
and the response is the same on every repeated call whatever the oracle
state, so the body bytes are identical across calls. -/
theorem C6_mock_routes_and_stops_fixed_and_repeatable
    (cfg : Config) (w : World) (path : List Char)
    (hmock : cfg.mock = true)
    (hp : "/api/".toList.isPrefixOf path = true)
    (ht : reqTypeOfPath path = "getserviceroutesandstops".toList) :
    (handle cfg w .GET path).resp =
      some (mkResponse 200 contentTypeJson
        (utf8Encode (dumps MOCK_ROUTES_AND_STOPS))) ∧
    ∀ (cfg2 : Config) (w2 : World), cfg2.mock = true →
      (handle cfg2 w2 .GET path).resp = (handle cfg w .GET path).resp := by
  constructor
  · rw [handle_mock_api cfg w path hmock hp]
    show some (serveMockResponse _) = _
    unfold serveMockResponse
    rw [show reqTypeOfApiPath (path.drop 4) = reqTypeOfPath path from rfl, ht]
    rfl
  · intro cfg2 w2 hmock2
    rw [handle_mock_api cfg w path hmock hp, handle_mock_api cfg2 w2 path hmock2 hp]

theorem C6_witness :
    (handle cfgMock wDemo .GET "/api/foo?type=getserviceroutesandstops".toList).resp =
      some (mkResponse 200 contentTypeJson
        (utf8Encode (dumps MOCK_ROUTES_AND_STOPS))) :=
  (C6_mock_routes_and_stops_fixed_and_repeatable cfgMock wDemo
    "/api/foo?type=getserviceroutesandstops".toList rfl (by decide) (by decide)).1

theorem dumps_empty_envelope_eq :
    dumps EMPTY_ENVELOPE = "\x7b\"status\": 200, \"data\": []\x7d".toList := by
  simp [EMPTY_ENVELOPE, dumps, dumpsObj, dumpsArr, jsonStr, jsonEscapeChar, hex4, Nat.repr]
  decide

/-- C7 counterexample: with mock mode enabled, the response body for an
unrecognized type value is the json.dumps text with the default
separators, which contains a space after the colon and after the comma,
so it is not byte-for-byte the compact text the claim states. -/
theorem C7_counterexample :
    (handle cfgMock wDemo .GET "/api/x?type=bogus".toList).resp.map Response.body
      = some (utf8Encode "\x7b\"status\": 200, \"data\": []\x7d".toList) ∧
    (handle cfgMock wDemo .GET "/api/x?type=bogus".toList).resp.map Response.body
      ≠ some (utf8Encode "\x7b\"status\":200,\"data\":[]\x7d".toList) := by
  have hbody : (handle cfgMock wDemo .GET "/api/x?type=bogus".toList).resp.map Response.body
      = some (utf8Encode (dumps EMPTY_ENVELOPE)) := by
    rw [handle_mock_api cfgMock wDemo "/api/x?type=bogus".toList rfl (by decide)]
    show some (serveMockResponse _).body = _
    unfold serveMockResponse
    rw [show reqTypeOfApiPath ("/api/x?type=bogus".toList.drop 4) = "bogus".toList by decide]
    rfl
  rw [hbody, dumps_empty_envelope_eq]
  exact ⟨rfl, by decide⟩

/-- C7 as amended: with mock mode enabled, every GET to an /api/ path
whose type query parameter is unrecognized (any value other than the
three known ones, including absent) is answered 200 (never an error)
with body exactly the json.dumps text of the empty-success envelope,
which with the default separators carries a space after the colon and
the comma. -/
theorem C7_amended_unknown_type_yields_200_empty_envelope
    (cfg : Config) (w : World) (path : List Char)
    (hmock : cfg.mock = true)
    (hp : "/api/".toList.isPrefixOf path = true)
    (h1 : reqTypeOfPath path ≠ "getserviceroutesandstops".toList)
    (h2 : reqTypeOfPath path ≠ "getrunningshiftsolutions".toList)
    (h3 : reqTypeOfPath path ≠ "getrunningstopdetails".toList) :
    (handle cfg w .GET path).resp =
      some (mkResponse 200 contentTypeJson
        (utf8Encode "\x7b\"status\": 200, \"data\": []\x7d".toList)) := by
  rw [handle_mock_api cfg w path hmock hp]
  show some (serveMockResponse _) = _
  unfold serveMockResponse
  rw [show reqTypeOfApiPath (path.drop 4) = reqTypeOfPath path from rfl]
  unfold mockTable
  rw [if_neg h1, if_neg h2, if_neg h3, dumps_empty_envelope_eq]

theorem C7_witness :
    (handle cfgMock wDemo .GET "/api/y?type=bogus&z=2".toList).resp =
      some (mkResponse 200 contentTypeJson
        (utf8Encode "\x7b\"status\": 200, \"data\": []\x7d".toList)) :=
  C7_amended_unknown_type_yields_200_empty_envelope cfgMock wDemo
    "/api/y?type=bogus&z=2".toList rfl (by decide) (by decide) (by decide) (by decide)

/-- C8 counterexample: the empty string is malformed in the claim's sense
(no colon separator, and its single field is not parseable as an
integer), yet startup does not exit: DEBUG_TIME_OVERRIDE is falsy in the
truthiness guard, so the validation block is skipped entirely and the
server proceeds to bind with the override set to the empty string. -/
theorem C8_counterexample :
    timeFormatOk "" = false ∧ startup false (some "") = .serve ⟨false, some ""⟩ := by
  constructor
  · decide
  · rfl

/-- C8 as amended: for a non-empty --time argument, a string the
validation rejects (wrong separator count or a field int() does not
accept) terminates startup with exit status one before the listening
socket is bound, and a string splitting on colons into exactly two
int()-parseable fields is accepted; the empty string is treated as an
unset override and accepted without validation. -/
theorem C8_amended_nonempty_malformed_time_exits_before_bind
    (mock : Bool) (t : String) (hne : t ≠ "") :
    (timeFormatOk t = false → startup mock (some t) = .exitError) ∧
    (timeFormatOk t = true → startup mock (some t) = .serve ⟨mock, some t⟩) := by
  constructor <;> intro h <;> simp [startup, hne, h]

theorem C8_witness :
    startup false (some "ab:cd") = .exitError ∧
    startup true (some "25:99") = .serve ⟨true, some "25:99"⟩ :=
  ⟨(C8_amended_nonempty_malformed_time_exits_before_bind false "ab:cd"
      (by decide)).1 (by decide),
   (C8_amended_nonempty_malformed_time_exits_before_bind true "25:99"
      (by decide)).2 (by decide)⟩

theorem infix_append_left (pre : List Char) {l m : List Char}
    (h : l <:+: m) : l <:+: pre ++ m := by
  obtain ⟨s, t, rfl⟩ := h
  exact ⟨pre ++ s, t, by simp⟩

theorem subAll_infix_of_hasPat {l : List Char}
    (h : hasPat l = true) : corsReplacement <:+: subAll l := by
  induction l using subAll.induct with
  | case1 => simp [hasPat] at h
  | case2 c cs rest hm =>
    rw [subAll, hm]
    exact ⟨[], subAll rest, by simp⟩
  | case3 c cs hm ih =>
    rw [subAll, hm]
    have hcs : hasPat cs = true := by
      have := h
      rw [hasPat, hm] at this
      simpa using this
    exact List.infix_cons (ih hcs)

theorem subAll_eq_of_not_hasPat {l : List Char}
    (h : hasPat l = false) : subAll l = l := by
  induction l using subAll.induct with
  | case1 => simp [subAll]
  | case2 c cs rest hm =>
    rw [hasPat, hm] at h
    simp at h
  | case3 c cs hm ih =>
    rw [subAll, hm]
    have hcs : hasPat cs = false := by
      rw [hasPat, hm] at h
      simpa using h
    rw [ih hcs]

/-- Variant of scanQuote that also returns the characters consumed before
the closing quote, i.e. the quoted value the match captures. -/
def scanQuoteV : List Char → Option (List Char × List Char)
  | [] => none
  | c :: cs =>
    if isQuoteChar c then some ([], cs)
    else (scanQuoteV cs).map fun p => (c :: p.1, p.2)

/-- Variant of matchPat that also returns the quoted value of the match,
used to state which assignments occur in a text. -/
def matchPatV (l : List Char) : Option (List Char × List Char) :=
  if corsKeyChars.isPrefixOf l then
    match (l.drop corsKeyChars.length).dropWhile isPySpace with
    | [] => none
    | c :: cs => if isQuoteChar c then scanQuoteV cs else none
  else none

theorem scanQuote_eq_scanQuoteV (l : List Char) :
    scanQuote l = (scanQuoteV l).map Prod.snd := by
  induction l with
  | nil => rfl
  | cons c cs ih =>
    simp only [scanQuote, scanQuoteV]
    split
    · rfl
    · rw [ih, Option.map_map]
      rfl

theorem matchPat_eq_matchPatV (l : List Char) :
    matchPat l = (matchPatV l).map Prod.snd := by
  unfold matchPat matchPatV
  split
  · split
    · rfl
    · split
      · exact scanQuote_eq_scanQuoteV _
      · rfl
  · rfl

/-- Whether a CORS_PROXY_URL assignment with a non-empty quoted value
matches at the head of the text. -/
def nonEmptyMatchHead (l : List Char) : Bool :=
  match matchPatV l with
  | some p => !p.1.isEmpty
  | none => false

/-- Whether the text contains, at any position, a CORS_PROXY_URL
assignment whose quoted value is non-empty. -/
def hasNonEmptyMatch : List Char → Bool
  | [] => false
  | c :: cs => nonEmptyMatchHead (c :: cs) || hasNonEmptyMatch cs

theorem matchPat_some_key {l r : List Char} (h : matchPat l = some r) :
    corsKeyChars <+: l := by
  unfold matchPat at h
  split at h
  · rename_i hpre
    exact List.isPrefixOf_iff_prefix.mp hpre
  · cases h

theorem matchPat_none_of_ne_C {x : Char} {xs : List Char} (h : x ≠ 'C') :
    matchPat (x :: xs) = none := by
  have hb : corsKeyChars.isPrefixOf (x :: xs) = false := by
    rw [show corsKeyChars = 'C' :: "ORS_PROXY_URL:".toList from rfl]
    simp [List.isPrefixOf]
    intro hcx
    exact absurd hcx.symm h
  unfold matchPat
  rw [hb]
  simp

theorem subAll_take_15 (l : List Char) : (subAll l).take 15 = l.take 15 := by
  induction l using subAll.induct with
  | case1 => simp [subAll]
  | case2 c cs rest hm =>
    rw [subAll, hm]
    obtain ⟨t, ht⟩ := matchPat_some_key hm
    have h1 : (corsReplacement ++ subAll rest).take 15 = corsKeyChars := by
      rw [show corsReplacement = corsKeyChars ++ corsReplacement.drop 15 from rfl,
          List.append_assoc,
          show (15 : Nat) = corsKeyChars.length from rfl, List.take_left]
    have h2 : (c :: cs).take 15 = corsKeyChars := by
      rw [← ht, show (15 : Nat) = corsKeyChars.length from rfl, List.take_left]
    rw [h1, h2]
  | case3 c cs hm ih =>
    rw [subAll, hm]
    have ih14 : (subAll cs).take 14 = cs.take 14 := by
      have h := congrArg (List.take 14) ih
      simpa [List.take_take] using h
    rw [show (15 : Nat) = 14 + 1 from rfl, List.take_succ_cons, List.take_succ_cons, ih14]

theorem subAll_take_le {n : Nat} (hn : n ≤ 15) (l : List Char) :
    (subAll l).take n = l.take n := by
  have h := congrArg (List.take n) (subAll_take_15 l)
  simpa [List.take_take, Nat.min_eq_left hn] using h

theorem subAll_append_no_C {pre : List Char} (hpre : ∀ x ∈ pre, x ≠ 'C')
    (t : List Char) : subAll (pre ++ t) = pre ++ subAll t := by
  induction pre with
  | nil => simp
  | cons p ps ih =>
    have hm : matchPat (p :: (ps ++ t)) = none :=
      matchPat_none_of_ne_C (hpre p (by simp))
    rw [List.cons_append, subAll, hm, ih (fun x hx => hpre x (by simp [hx]))]
    rfl

theorem head_dropWhile_false (p : Char → Bool) (l : List Char) {d : Char}
    {ds : List Char} (h : l.dropWhile p = d :: ds) : p d = false := by
  induction l with
  | nil => simp [List.dropWhile] at h
  | cons c cs ih =>
    rw [List.dropWhile_cons] at h
    split at h
    · exact ih h
    · rename_i hc
      cases h
      simpa using hc

theorem scanQuote_none_no_quote {l : List Char} (h : scanQuote l = none) :
    ∀ x ∈ l, isQuoteChar x = false := by
  induction l with
  | nil => simp
  | cons c cs ih =>
    rw [scanQuote] at h
    split at h
    · cases h
    · rename_i hc
      intro x hx
      rcases List.mem_cons.mp hx with rfl | hx2
      · simpa using hc
      · exact ih h x hx2

theorem matchPat_none_of_no_quote {l : List Char}
    (h : ∀ x ∈ l, isQuoteChar x = false) : matchPat l = none := by
  unfold matchPat
  split
  · split
    · rfl
    · rename_i d ds hd
      have hd_mem : d ∈ l := by
        have h1 : d ∈ (l.drop corsKeyChars.length).dropWhile isPySpace := by
          rw [hd]
          exact List.mem_cons_self _ _
        exact (List.drop_sublist _ _).subset ((List.dropWhile_sublist _).subset h1)
      simp [h d hd_mem]
  · rfl

theorem subAll_id_of_no_quote {l : List Char}
    (h : ∀ x ∈ l, isQuoteChar x = false) : subAll l = l := by
  induction l with
  | nil => simp [subAll]
  | cons c cs ih =>
    have hm : matchPat (c :: cs) = none := matchPat_none_of_no_quote h
    rw [subAll, hm, ih (fun x hx => h x (List.mem_cons_of_mem _ hx))]

theorem subAll_cons_cases (d : Char) (ds : List Char) :
    (∃ rest, matchPat (d :: ds) = some rest ∧
      subAll (d :: ds) = corsReplacement ++ subAll rest) ∨
    (matchPat (d :: ds) = none ∧ subAll (d :: ds) = d :: subAll ds) := by
  cases hm : matchPat (d :: ds) with
  | some rest => exact Or.inl ⟨rest, rfl, by rw [subAll, hm]⟩
  | none => exact Or.inr ⟨rfl, by rw [subAll, hm]⟩

theorem hasNonEmptyMatch_repl_append (Y : List Char)
    (h : hasNonEmptyMatch Y = false) :
    hasNonEmptyMatch (corsReplacement ++ Y) = false := by
  rw [show corsReplacement = 'C' :: 'O' :: 'R' :: 'S' :: '_' :: 'P' :: 'R' :: 'O' :: 'X' :: 'Y' :: '_' :: 'U' :: 'R' :: 'L' :: ':' :: ' ' :: '\x27' :: '\x27' :: [] from rfl]
  simp +decide [hasNonEmptyMatch, nonEmptyMatchHead, matchPatV, scanQuoteV, corsKeyChars,
    isQuoteChar, isPySpace, List.isPrefixOf, h]

theorem matchPatV_cons_subAll_none {c : Char} {cs : List Char}
    (hm : matchPat (c :: cs) = none) :
    matchPatV (c :: subAll cs) = none := by
  by_cases hkey : corsKeyChars <+: (c :: cs)
  · obtain ⟨tail, ht⟩ := hkey
    have ht' : ('C' : Char) :: ("ORS_PROXY_URL:".toList ++ tail) = c :: cs := ht
    injection ht' with hc hcs
    subst hc
    subst hcs
    rw [subAll_append_no_C (by decide) tail]
    have hform : ('C' : Char) :: ("ORS_PROXY_URL:".toList ++ subAll tail)
        = corsKeyChars ++ subAll tail := rfl
    rw [hform]
    -- reduce hm to the failure of the part after the key
    unfold matchPat at hm
    rw [if_pos (by rw [List.isPrefixOf_iff_prefix]
                   exact ⟨tail, rfl⟩)] at hm
    rw [show (('C' : Char) :: ("ORS_PROXY_URL:".toList ++ tail))
          = corsKeyChars ++ tail from rfl, List.drop_left] at hm
    -- whitespace decomposition of the rewritten tail
    have hws : subAll tail =
        tail.takeWhile isPySpace ++ subAll (tail.dropWhile isPySpace) := by
      conv_lhs => rw [← @List.takeWhile_append_dropWhile _ isPySpace tail]
      rw [subAll_append_no_C]
      intro x hx hxC
      have hsp := List.mem_takeWhile_imp hx
      rw [hxC] at hsp
      exact absurd hsp (by decide)
    have hdwtw : (tail.takeWhile isPySpace).dropWhile isPySpace = [] := by
      rw [List.dropWhile_eq_nil_iff]
      exact fun a ha => List.mem_takeWhile_imp ha
    have hdw : (subAll tail).dropWhile isPySpace
        = (subAll (tail.dropWhile isPySpace)).dropWhile isPySpace := by
      rw [hws, List.dropWhile_append, hdwtw]
      simp
    unfold matchPatV
    rw [if_pos (by rw [List.isPrefixOf_iff_prefix]
                   exact List.prefix_append _ _),
        List.drop_left, hdw]
    cases hdrop : tail.dropWhile isPySpace with
    | nil => simp [subAll]
    | cons d ds =>
      have hdns : isPySpace d = false := head_dropWhile_false isPySpace tail hdrop
      rw [hdrop] at hm
      dsimp only at hm
      by_cases hq : isQuoteChar d = true
      · rw [if_pos hq] at hm
        have hnoq : ∀ x ∈ ds, isQuoteChar x = false := scanQuote_none_no_quote hm
        have hdC : d ≠ 'C' := by
          intro hdc
          rw [hdc] at hq
          exact absurd hq (by decide)
        have hid : subAll (d :: ds) = d :: ds := by
          rw [subAll, matchPat_none_of_ne_C hdC, subAll_id_of_no_quote hnoq]
        rw [hid, List.dropWhile_cons_of_neg (by simp [hdns])]
        have hsqv : scanQuoteV ds = none := by
          have hlink := scanQuote_eq_scanQuoteV ds
          rw [hm] at hlink
          cases hv : scanQuoteV ds with
          | none => rfl
          | some p =>
            rw [hv] at hlink
            cases hlink
        simp [hq, hsqv]
      · have hqf : isQuoteChar d = false := by simpa using hq
        rcases subAll_cons_cases d ds with ⟨rest, hmm2, hsub⟩ | ⟨hmm2, hsub⟩
        · rw [hsub,
              show corsReplacement ++ subAll rest
                = ('C' : Char) :: (corsReplacement.drop 1 ++ subAll rest) from rfl,
              List.dropWhile_cons_of_neg (by decide)]
          simp +decide [isQuoteChar]
        · rw [hsub, List.dropWhile_cons_of_neg (by simp [hdns])]
          simp [hqf]
  · have htake : (c :: subAll cs).take 15 = (c :: cs).take 15 := by
      rw [show (15 : Nat) = 14 + 1 from rfl, List.take_succ_cons, List.take_succ_cons,
          subAll_take_le (by omega) cs]
    have hkey2 : ¬ corsKeyChars <+: (c :: subAll cs) := by
      intro hk
      apply hkey
      rw [List.prefix_iff_eq_take] at hk ⊢
      rw [show corsKeyChars.length = 15 from rfl] at hk ⊢
      rw [← htake]
      exact hk
    have hb : corsKeyChars.isPrefixOf (c :: subAll cs) = false := by
      rw [← Bool.not_eq_true, List.isPrefixOf_iff_prefix]
      exact hkey2
    unfold matchPatV
    rw [hb]
    simp

theorem subAll_no_nonempty_match (l : List Char) :
    hasNonEmptyMatch (subAll l) = false := by
  induction l using subAll.induct with
  | case1 => simp [subAll, hasNonEmptyMatch]
  | case2 c cs rest hm ih =>
    rw [subAll, hm]
    exact hasNonEmptyMatch_repl_append _ ih
  | case3 c cs hm ih =>
    rw [subAll, hm, hasNonEmptyMatch]
    simp [nonEmptyMatchHead, matchPatV_cons_subAll_none hm, ih]

/-- C9 counterexample: for the empty config.js content there is no match
of the assignment pattern, the rewrite is the identity, and the served
text does not contain the CORS_PROXY_URL key at all, against the claim
that the key is always present with an empty string in the served text. -/
theorem C9_counterexample :
    configOutputText cfgLive [] = [] ∧
    ¬ ("CORS_PROXY_URL".toList <:+: configOutputText cfgLive []) := by
  have h : configOutputText cfgLive [] = [] := by
    simp [configOutputText, debugInjection, cfgLive, subAll]
  refine ⟨h, ?_⟩
  rw [h]
  simp

/-- C9 as amended: every match of the CORS_PROXY_URL assignment pattern
is rewritten to the key with an empty string value, regardless of its
original value: the rewritten config text contains no assignment matching
the pattern with a non-empty quoted value (third conjunct, so no original
non-empty value survives inside any assignment), and when the file
contains at least one matching assignment the served text contains the
rewritten assignment with the empty string; when the file contains no
match the rewrite is the identity on the text, so the key may be absent
from the served output (the rewrite is a silent no-op). -/
theorem C9_amended_every_match_rewritten_or_silent_noop
    (cfg : Config) (content : List Char) :
    (hasPat content = true → corsReplacement <:+: configOutputText cfg content) ∧
    (hasPat content = false → subAll content = content) ∧
    hasNonEmptyMatch (subAll content) = false := by
  refine ⟨?_, fun h => subAll_eq_of_not_hasPat h, subAll_no_nonempty_match content⟩
  intro h
  have hsub : corsReplacement <:+: subAll content := subAll_infix_of_hasPat h
  simp only [configOutputText]
  split
  · exact hsub
  · exact infix_append_left _ (List.infix_cons hsub)

/-- A concrete config.js content with one matching assignment. -/
def demoConfigContent : List Char :=
  "const CONFIG = \x7b\n  CORS_PROXY_URL: \x27https://cors.example.workers.dev/?u=\x27,\n  DEBUG: false\n\x7d;\n".toList

theorem C9_witness :
    corsReplacement <:+: configOutputText cfgLive demoConfigContent :=
  (C9_amended_every_match_rewritten_or_silent_noop cfgLive demoConfigContent).1
    (by decide)

/-- C10: a GET whose path is exactly /api, or begins with /api without
the following slash (such as /apifoo), is not handled by the API proxy:
dispatch tests the five-character text /api/ (even though the proxy
itself strips only four characters), the config branch cannot match a
path starting with /api, and the request falls through to the static
file branch with no upstream call. -/
theorem C10_api_without_slash_falls_through_to_static
    (cfg : Config) (w : World) (path : List Char)
    (h1 : "/api".toList.isPrefixOf path = true)
    (h2 : "/api/".toList.isPrefixOf path = false) :
    handle cfg w .GET path = staticBranch w ∧
    (handle cfg w .GET path).upstreamCalled = false := by
  have hpfx : ['/', 'a', 'p', 'i'] <+: path := by
    simpa using List.isPrefixOf_iff_prefix.mp h1
  obtain ⟨t, rfl⟩ := hpfx
  have hc1 : ¬ (['/', 'a', 'p', 'i'] ++ t = "/config.js".toList) := by simp
  have hc2 : "/config.js?".toList.isPrefixOf (['/', 'a', 'p', 'i'] ++ t) = false := by
    rw [← Bool.not_eq_true, List.isPrefixOf_iff_prefix]
    intro hcon
    simp [List.cons_prefix_cons] at hcon
  have h2p : ¬ (['/'] <+: t) := by
    have h2b : ['/'].isPrefixOf t = false := by simpa using h2
    rw [← Bool.not_eq_true, List.isPrefixOf_iff_prefix] at h2b
    exact h2b
  have hmain : handle cfg w .GET (['/', 'a', 'p', 'i'] ++ t) = staticBranch w := by
    simp [handle, handleGET, h2p, hc1, hc2]
  refine ⟨hmain, ?_⟩
  rw [hmain]
  unfold staticBranch
  rcases w.staticResult with ⟨s, d, b⟩ | m <;> rfl

theorem C10_witness :
    handle cfgLive wDemo .GET "/api".toList = staticBranch wDemo ∧
    (handle cfgLive wDemo .GET "/api".toList).upstreamCalled = false :=
  C10_api_without_slash_falls_through_to_static cfgLive wDemo "/api".toList
    (by decide) (by decide)
